import Mathlib

/-!
Verification of the meeting-SDK auth endpoint (src/index.js, src/zoomAuth.js).

The two network-facing functions are embedded as pure functions over explicit
oracle parameters: the identity-store HTTP response, the elevation-token
(ZAK) fetch outcome, and the clock reading are inputs, and the outbound
calls actually performed are recorded as booleans in the result.  JavaScript
values that can carry a role attribute are modelled by a small JSValue type
with the Number(...) coercion used at index.js:103; string coercion is
modelled for trimmed decimal integer literals (the store documents the Role
attribute as the integer 0 or 1), with none standing for NaN.
-/

/-- Model of the JavaScript values a record attribute can hold. -/
inductive JSValue where
  | undef
  | null
  | bool (b : Bool)
  | num (n : Int)
  | str (s : String)
deriving DecidableEq, Repr

/-- Digit-string to number; none when some character is not a digit or the
list is empty (JavaScript NaN). -/
def digitsToNat : List Char → Option Nat
  | [] => none
  | cs =>
    if cs.all Char.isDigit then
      some (cs.foldl (fun a c => a * 10 + (c.toNat - 48)) 0)
    else none

/-- Whitespace stripped by the JavaScript Number(...) coercion. -/
def isJSWhitespace (c : Char) : Bool :=
  c = ' ' || c = '\t' || c = '\n' || c = '\r'

/-- Strip leading and trailing whitespace from a character list. -/
def trimChars (cs : List Char) : List Char :=
  ((cs.dropWhile isJSWhitespace).reverse.dropWhile isJSWhitespace).reverse

/-- JavaScript Number(...) on a string: trimmed, empty coerces to 0, an
optionally signed decimal integer literal to its value, anything else to
NaN (none). -/
def jsStringToNumber (s : String) : Option Int :=
  match trimChars s.data with
  | [] => some 0
  | '-' :: rest => (digitsToNat rest).map (fun n => -(n : Int))
  | '+' :: rest => (digitsToNat rest).map (fun n => (n : Int))
  | cs => (digitsToNat cs).map (fun n => (n : Int))

/-- JavaScript Number(...) coercion; none is NaN. -/
def jsToNumber : JSValue → Option Int
  | JSValue.undef => none
  | JSValue.null => some 0
  | JSValue.bool b => some (if b then 1 else 0)
  | JSValue.num n => some n
  | JSValue.str s => jsStringToNumber s

/-- JavaScript truthiness of a nullable string (null and the empty string
are falsy). -/
def jsTruthyO : Option String → Bool
  | none => false
  | some s => !(s == "")

/-- The value ZoomEmail-or-null computed at index.js:80: user.ZoomEmail
with a falsy value (absent or empty string) replaced by null. -/
def jsOrNull : Option String → Option String
  | none => none
  | some s => if s == "" then none else some s

/-- A JSON value that is either a string or a number, as accepted for
meetingNumber by the zod union at index.js:57 and stored in
AllowedMeetings entries. -/
inductive StrOrNum where
  | str (s : String)
  | num (n : Int)
deriving DecidableEq, Repr

/-- JavaScript String(...) on such a value, as used at index.js:98-99. -/
def jsStringOf : StrOrNum → String
  | StrOrNum.str s => s
  | StrOrNum.num n => toString n

/-- Request body for POST /sign.  uuid, meetingNumber and videoWebRtcMode
are the fields the SignSchema reads; clientRole models an extra
client-supplied role field, which the schema ignores (zod strips unknown
keys). -/
structure ReqBody where
  uuid : Option String
  meetingNumber : Option StrOrNum
  videoWebRtcMode : Option Int
  clientRole : Option JSValue
deriving DecidableEq, Repr

/-- Result of a successful SignSchema.safeParse (index.js:55-59). -/
structure Parsed where
  uuid : String
  meetingNumber : StrOrNum
  videoWebRtcMode : Int
deriving DecidableEq, Repr

/-- SignSchema.safeParse: uuid must be a string of length at least 10,
meetingNumber a string or number, videoWebRtcMode an integer in [0, 1]
defaulting to 1; the clientRole field is not part of the schema and is
dropped. -/
def parseSign (b : ReqBody) : Option Parsed :=
  match b.uuid, b.meetingNumber with
  | some u, some m =>
    if u.length ≥ 10 then
      match b.videoWebRtcMode with
      | none => some ⟨u, m, 1⟩
      | some v => if 0 ≤ v ∧ v ≤ 1 then some ⟨u, m, v⟩ else none
    else none
  | _, _ => none

/-- One record of the identity-store response (records[0] shape read at
index.js:77-82).  Role is an arbitrary JS value; ZoomEmail and
AllowedMeetings may be absent. -/
structure UserRecord where
  Role : JSValue
  ZoomEmail : Option String
  AllowedMeetings : Option (List StrOrNum)
deriving DecidableEq, Repr

/-- Outcome of the identity-store HTTP call: a non-success status, or a
success carrying the records array. -/
inductive AdaloResp where
  | fail
  | ok (records : List UserRecord)
deriving DecidableEq, Repr

/-- Normalized trusted identity built at index.js:78-82. -/
structure User where
  role : JSValue
  zoomEmail : Option String
  allowedMeetings : List StrOrNum
deriving DecidableEq, Repr

/-- getUserByUUID (index.js:62-83), with the HTTP outcome as an explicit
parameter: null on a non-success status or an empty records array,
otherwise the first record normalized (ZoomEmail falsy becomes null,
AllowedMeetings defaults to the empty list). -/
def getUserByUUID : AdaloResp → Option User
  | AdaloResp.fail => none
  | AdaloResp.ok [] => none
  | AdaloResp.ok (r :: _) =>
    some ⟨r.Role, jsOrNull r.ZoomEmail, r.AllowedMeetings.getD []⟩

/-- Role normalization at index.js:103: Number(user.role) === 1 gives host
(1), everything else attendee (0). -/
def normalizeRole (v : JSValue) : Int :=
  if jsToNumber v = some 1 then 1 else 0

/-- Process configuration used by the /sign route. -/
structure Env where
  sdkKey : String
  sdkSecret : String
  signExpSeconds : Option Int
deriving DecidableEq, Repr

/-- JWT JOSE header (index.js:108). -/
structure JoseHeader where
  alg : String
  typ : String
deriving DecidableEq, Repr

def oHeader : JoseHeader := ⟨"HS256", "JWT"⟩

/-- JWT payload built at index.js:109-118. -/
structure Payload where
  appKey : String
  sdkKey : String
  mn : String
  role : Int
  iat : Int
  exp : Int
  tokenExp : Int
  video_webrtc_mode : Int
deriving DecidableEq, Repr

/-- KJUR.jws.JWS.sign at index.js:120-125, kept abstract as the triple of
its inputs: what matters for the claims is which header, payload and
secret are embedded in the signature. -/
structure Sig where
  header : JoseHeader
  payload : Payload
  secret : String
deriving DecidableEq, Repr

def signJWT (h : JoseHeader) (p : Payload) (secret : String) : Sig := ⟨h, p, secret⟩

/-- Client-visible response of the /sign route: a success body
(signature, sdkKey, optional zak field — none means the field is absent)
or an error status with its body string. -/
inductive Resp where
  | ok (signature : Sig) (sdkKey : String) (zak : Option String)
  | err (status : Nat) (body : String)
deriving DecidableEq, Repr

/-- HTTP status of a response (a success body is sent with status 200). -/
def respStatus : Resp → Nat
  | Resp.ok _ _ _ => 200
  | Resp.err s _ => s

/-- The zak field of a success body; none when absent or on an error. -/
def respZak : Resp → Option String
  | Resp.ok _ _ z => z
  | Resp.err _ _ => none

/-- The role embedded in the signed payload of a success body. -/
def respRole : Resp → Option Int
  | Resp.ok sig _ _ => some sig.payload.role
  | Resp.err _ _ => none

/-- Result of one request: the response together with which outbound calls
were performed.  The OAuth token exchange happens only inside getZak, so
zakCalled = false also means no OAuth exchange was reached. -/
structure HandlerResult where
  resp : Resp
  adaloCalled : Bool
  zakCalled : Bool
deriving DecidableEq, Repr

/-- The POST /sign handler (index.js:86-141) over explicit oracles: the
identity-store outcome and the getZak outcome (Except.error models getZak
throwing, which the outer catch turns into a 500; Except.ok carries
data.token, possibly absent or empty).  now is the clock reading used for
iat. -/
def handleSignRequest (env : Env) (now : Int) (body : ReqBody)
    (adalo : AdaloResp) (zakOutcome : Except Unit (Option String)) : HandlerResult :=
  match parseSign body with
  | none => ⟨Resp.err 400 "Invalid body", false, false⟩
  | some p =>
    match getUserByUUID adalo with
    | none => ⟨Resp.err 401 "Unknown user", true, false⟩
    | some user =>
      let mn := jsStringOf p.meetingNumber
      if (user.allowedMeetings.map jsStringOf).contains mn then
        let role := normalizeRole user.role
        let iat := now
        let exp := iat + env.signExpSeconds.getD 3600
        let payload : Payload := ⟨env.sdkKey, env.sdkKey, mn, role, iat, exp, exp, p.videoWebRtcMode⟩
        let signature := signJWT oHeader payload env.sdkSecret
        if role = 1 ∧ user.zoomEmail.isSome then
          match zakOutcome with
          | Except.error _ => ⟨Resp.err 500 "Internal server error", true, true⟩
          | Except.ok t =>
            ⟨Resp.ok signature env.sdkKey (if jsTruthyO t then t else none), true, true⟩
        else
          ⟨Resp.ok signature env.sdkKey none, true, false⟩
      else
        ⟨Resp.err 403 "User not allowed for this meeting", true, false⟩

/-! Token cache (src/zoomAuth.js). -/

/-- The module-level cache of zoomAuth.js:3-4; cachedToken = none models
the initial null. -/
structure AuthState where
  cachedToken : Option String
  cachedExpiry : Int
deriving DecidableEq, Repr

/-- Outcome of the OAuth token-endpoint call. -/
inductive TokenResp where
  | fail (status : Nat) (body : String)
  | ok (accessToken : String) (expiresIn : Int)
deriving DecidableEq, Repr

/-- Result of getZoomAccessToken: the returned token or the thrown error
(upstream status and body), the cache state afterwards, and whether a
refresh (the OAuth exchange) was performed. -/
structure AuthResult where
  outcome : Except (Nat × String) String
  state : AuthState
  refreshed : Bool
deriving Repr

/-- getZoomAccessToken (zoomAuth.js:9-36) with the clock and the upstream
response as explicit parameters: return the cached token unchanged when it
is truthy and now < cachedExpiry - 60; otherwise perform the exchange,
throwing on a non-success status and otherwise replacing both the cached
token and its expiry (now + expires_in). -/
def getZoomAccessToken (st : AuthState) (now : Int) (upstream : TokenResp) : AuthResult :=
  if jsTruthyO st.cachedToken ∧ now < st.cachedExpiry - 60 then
    ⟨Except.ok (st.cachedToken.getD ""), st, false⟩
  else
    match upstream with
    | TokenResp.fail s b => ⟨Except.error (s, b), st, true⟩
    | TokenResp.ok tok ei => ⟨Except.ok tok, ⟨some tok, now + ei⟩, true⟩

/-! Startup safety checks (index.js:17-23). -/

/-- The environment variables whose absence aborts startup. -/
def requiredEnvVars : List String :=
  ["ZOOM_MEETING_SDK_KEY", "ZOOM_MEETING_SDK_SECRET", "ADALO_API_KEY", "ADALO_COLLECTION_ID"]

/-- True when the startup loop at index.js:17-23 calls process.exit(1):
some required variable is absent or empty (falsy). -/
def startupExits (env : String → Option String) : Bool :=
  requiredEnvVars.any (fun k => !(jsTruthyO (env k)))

/-! Concrete inputs used by witnesses and counterexamples. -/

def env0 : Env := ⟨"sdk-key-0", "sdk-secret-0", none⟩

def body0 : ReqBody := ⟨some "user-abc-123456", some (StrOrNum.num 987654321), some 1, none⟩

def rec0 : UserRecord := ⟨JSValue.num 1, some "h@x.com", some [StrOrNum.num 987654321]⟩

def adalo0 : AdaloResp := AdaloResp.ok [rec0]

def user0 : User := ⟨JSValue.num 1, some "h@x.com", [StrOrNum.num 987654321]⟩

def parsed0 : Parsed := ⟨"user-abc-123456", StrOrNum.num 987654321, 1⟩

def recNoMeetings : UserRecord := ⟨JSValue.num 1, some "h@x.com", none⟩

def bodyShortUuid : ReqBody := ⟨some "short", some (StrOrNum.num 1), none, none⟩

def envC9 : String → Option String :=
  fun k => if requiredEnvVars.contains k then some "configured" else none

/-! Claim theorems. -/

/-- Claim C1, counterexample.  At a valid request whose resolved role is
host with a contact identifier present, a failing elevation fetch (getZak
throwing) makes handleSignRequest answer 500, not the claimed 200: the
elevation failure is surfaced to the client as an error status. -/
theorem C1_counterexample :
    respStatus (handleSignRequest env0 100 body0 adalo0 (Except.error ())).resp = 500 ∧
    respStatus (handleSignRequest env0 100 body0 adalo0 (Except.error ())).resp ≠ 200 := by
  decide

/-- Claim C1, amended.  For every valid request whose resolved role is host
with a contact identifier present and an allowed meeting: if the elevation
token fetch throws, the handler responds 500 (the failure is surfaced, not
absorbed); if the fetch succeeds but yields a falsy (absent or empty)
token, the handler responds 200 with no elevation-token field, and the
signed role remains host — no demotion to attendee ever happens. -/
theorem C1_amended (env : Env) (now : Int) (body : ReqBody) (adalo : AdaloResp)
    (p : Parsed) (u : User)
    (hp : parseSign body = some p)
    (hu : getUserByUUID adalo = some u)
    (hallow : (u.allowedMeetings.map jsStringOf).contains (jsStringOf p.meetingNumber) = true)
    (hrole : jsToNumber u.role = some 1)
    (hmail : u.zoomEmail.isSome = true) :
    handleSignRequest env now body adalo (Except.error ())
      = ⟨Resp.err 500 "Internal server error", true, true⟩
    ∧ ∀ t, jsTruthyO t = false →
        handleSignRequest env now body adalo (Except.ok t)
          = ⟨Resp.ok (signJWT oHeader
                ⟨env.sdkKey, env.sdkKey, jsStringOf p.meetingNumber, 1, now,
                 now + env.signExpSeconds.getD 3600, now + env.signExpSeconds.getD 3600,
                 p.videoWebRtcMode⟩ env.sdkSecret)
              env.sdkKey none, true, true⟩ := by
  have hm : u.zoomEmail ≠ none := by
    cases h : u.zoomEmail with
    | none => rw [h] at hmail; simp at hmail
    | some s => simp
  have hallow2 : ∃ x ∈ u.allowedMeetings, jsStringOf x = jsStringOf p.meetingNumber := by
    simpa using hallow
  constructor
  · unfold handleSignRequest
    rw [hp, hu]
    simp [hallow2, normalizeRole, hrole, Option.isSome_iff_ne_none, hm]
  · intro t ht
    unfold handleSignRequest
    rw [hp, hu]
    simp [hallow2, normalizeRole, hrole, Option.isSome_iff_ne_none, hm, ht, signJWT]

/-- Claim C1, amended, witness at a concrete host request whose elevation
fetch throws. -/
theorem C1_amended_witness :
    handleSignRequest env0 100 body0 adalo0 (Except.error ())
      = ⟨Resp.err 500 "Internal server error", true, true⟩ :=
  (C1_amended env0 100 body0 adalo0 parsed0 user0 rfl rfl rfl rfl rfl).1

/-- Claim C2, counterexample.  At a valid host request whose elevation
fetch succeeds with an empty token, the role embedded in the returned
signature is 1 (host), not the attendee role 0 the claim says the rebuilt
claims would carry: no demotion or re-signing takes place. -/
theorem C2_counterexample :
    respRole (handleSignRequest env0 100 body0 adalo0 (Except.ok (some ""))).resp = some 1 ∧
    respRole (handleSignRequest env0 100 body0 adalo0 (Except.ok (some ""))).resp ≠ some 0 := by
  decide

/-- Claim C2, amended.  There is no demotion or re-signing path: for a
valid host request with a contact identifier, whatever the successful
elevation fetch returns (non-empty, empty or absent token), the handler
returns the one signature computed from a single clock reading — payload
role 1 (the resolved host role), iat = now and exp = tokenExp =
now + TTL — and only the presence of the zak response field varies. -/
theorem C2_amended (env : Env) (now : Int) (body : ReqBody) (adalo : AdaloResp)
    (p : Parsed) (u : User)
    (hp : parseSign body = some p)
    (hu : getUserByUUID adalo = some u)
    (hallow : (u.allowedMeetings.map jsStringOf).contains (jsStringOf p.meetingNumber) = true)
    (hrole : jsToNumber u.role = some 1)
    (hmail : u.zoomEmail.isSome = true) :
    ∀ t, handleSignRequest env now body adalo (Except.ok t)
      = ⟨Resp.ok (signJWT oHeader
            ⟨env.sdkKey, env.sdkKey, jsStringOf p.meetingNumber, 1, now,
             now + env.signExpSeconds.getD 3600, now + env.signExpSeconds.getD 3600,
             p.videoWebRtcMode⟩ env.sdkSecret)
          env.sdkKey (if jsTruthyO t then t else none), true, true⟩ := by
  have hm : u.zoomEmail ≠ none := by
    cases h : u.zoomEmail with
    | none => rw [h] at hmail; simp at hmail
    | some s => simp
  have hallow2 : ∃ x ∈ u.allowedMeetings, jsStringOf x = jsStringOf p.meetingNumber := by
    simpa using hallow
  intro t
  unfold handleSignRequest
  rw [hp, hu]
  simp [hallow2, normalizeRole, hrole, Option.isSome_iff_ne_none, hm, signJWT]

/-- Claim C2, amended, witness: a concrete host request with a non-empty
elevation token receives exactly the originally computed signature. -/
theorem C2_amended_witness :
    handleSignRequest env0 100 body0 adalo0 (Except.ok (some "ZAKTOKEN"))
      = ⟨Resp.ok (signJWT oHeader ⟨"sdk-key-0", "sdk-key-0", "987654321", 1, 100, 3700, 3700, 1⟩
            "sdk-secret-0") "sdk-key-0" (some "ZAKTOKEN"), true, true⟩ := by
  have h := C2_amended env0 100 body0 adalo0 parsed0 user0 rfl rfl rfl rfl rfl (some "ZAKTOKEN")
  simpa using h

/-- Claim C3.  Two request bodies that differ only in the client-supplied
role field produce identical handler results for every environment, clock,
identity-store outcome and elevation outcome: the signed role is a
function of the resolved record only, never of request input. -/
theorem C3_role_independence (env : Env) (now : Int) (adalo : AdaloResp)
    (zak : Except Unit (Option String)) (u : Option String) (m : Option StrOrNum)
    (v : Option Int) (r1 r2 : Option JSValue) :
    handleSignRequest env now ⟨u, m, v, r1⟩ adalo zak
      = handleSignRequest env now ⟨u, m, v, r2⟩ adalo zak := rfl


/-! Branch-shape lemmas for handleSignRequest, shared by several claims. -/

/-- Schema failure short-circuits to the 400 response with no outbound
call. -/
theorem handle_parse_fail (env : Env) (now : Int) (body : ReqBody) (adalo : AdaloResp)
    (zak : Except Unit (Option String)) (hp : parseSign body = none) :
    handleSignRequest env now body adalo zak = ⟨Resp.err 400 "Invalid body", false, false⟩ := by
  unfold handleSignRequest
  rw [hp]

/-- A null identity resolution short-circuits to the 401 response before
any elevation fetch. -/
theorem handle_unknown (env : Env) (now : Int) (body : ReqBody) (adalo : AdaloResp)
    (zak : Except Unit (Option String)) (p : Parsed)
    (hp : parseSign body = some p) (hu : getUserByUUID adalo = none) :
    handleSignRequest env now body adalo zak = ⟨Resp.err 401 "Unknown user", true, false⟩ := by
  unfold handleSignRequest
  rw [hp, hu]

/-- A meeting number outside the allow-list short-circuits to the 403
response before any elevation fetch. -/
theorem handle_forbidden (env : Env) (now : Int) (body : ReqBody) (adalo : AdaloResp)
    (zak : Except Unit (Option String)) (p : Parsed) (user : User)
    (hp : parseSign body = some p) (hu : getUserByUUID adalo = some user)
    (hal : (user.allowedMeetings.map jsStringOf).contains (jsStringOf p.meetingNumber) = false) :
    handleSignRequest env now body adalo zak
      = ⟨Resp.err 403 "User not allowed for this meeting", true, false⟩ := by
  simp only [handleSignRequest, hp, hu]
  rw [if_neg (by rw [hal]; exact Bool.false_ne_true)]

/-- When the resolved role is not host, or no contact identifier is
present, the originally signed claims are returned with no zak field and
no elevation fetch. -/
theorem handle_no_elevation (env : Env) (now : Int) (body : ReqBody) (adalo : AdaloResp)
    (zak : Except Unit (Option String)) (p : Parsed) (user : User)
    (hp : parseSign body = some p) (hu : getUserByUUID adalo = some user)
    (hal : (user.allowedMeetings.map jsStringOf).contains (jsStringOf p.meetingNumber) = true)
    (hcond : ¬(normalizeRole user.role = 1 ∧ user.zoomEmail.isSome = true)) :
    handleSignRequest env now body adalo zak
      = ⟨Resp.ok (signJWT oHeader
            ⟨env.sdkKey, env.sdkKey, jsStringOf p.meetingNumber, normalizeRole user.role, now,
             now + env.signExpSeconds.getD 3600, now + env.signExpSeconds.getD 3600,
             p.videoWebRtcMode⟩ env.sdkSecret)
          env.sdkKey none, true, false⟩ := by
  simp only [handleSignRequest, hp, hu]
  rw [if_pos hal, if_neg hcond]

/-- In the host-with-contact case, a throwing elevation fetch is caught by
the outer handler and surfaced as the 500 response. -/
theorem handle_elev_error (env : Env) (now : Int) (body : ReqBody) (adalo : AdaloResp)
    (p : Parsed) (user : User) (e : Unit)
    (hp : parseSign body = some p) (hu : getUserByUUID adalo = some user)
    (hal : (user.allowedMeetings.map jsStringOf).contains (jsStringOf p.meetingNumber) = true)
    (hrole1 : normalizeRole user.role = 1) (hmail : user.zoomEmail.isSome = true) :
    handleSignRequest env now body adalo (Except.error e)
      = ⟨Resp.err 500 "Internal server error", true, true⟩ := by
  simp only [handleSignRequest, hp, hu]
  rw [if_pos hal, if_pos ⟨hrole1, hmail⟩]

/-- In the host-with-contact case, a successful elevation fetch yields the
originally signed host claims, with the zak field present exactly when the
fetched token is truthy. -/
theorem handle_elev_ok (env : Env) (now : Int) (body : ReqBody) (adalo : AdaloResp)
    (p : Parsed) (user : User) (t : Option String)
    (hp : parseSign body = some p) (hu : getUserByUUID adalo = some user)
    (hal : (user.allowedMeetings.map jsStringOf).contains (jsStringOf p.meetingNumber) = true)
    (hrole1 : normalizeRole user.role = 1) (hmail : user.zoomEmail.isSome = true) :
    handleSignRequest env now body adalo (Except.ok t)
      = ⟨Resp.ok (signJWT oHeader
            ⟨env.sdkKey, env.sdkKey, jsStringOf p.meetingNumber, normalizeRole user.role, now,
             now + env.signExpSeconds.getD 3600, now + env.signExpSeconds.getD 3600,
             p.videoWebRtcMode⟩ env.sdkSecret)
          env.sdkKey (if jsTruthyO t then t else none), true, true⟩ := by
  simp only [handleSignRequest, hp, hu]
  rw [if_pos hal, if_pos ⟨hrole1, hmail⟩]

/-- Claim C4.  The success body carries the zak field exactly when the
final role is host and the fetched elevation token is non-empty: a present
zak field implies signed role 1 with a non-empty token coming from the
fetch; an identity resolving to attendee never yields a zak field whatever
the elevation outcome; and a fetched empty token leaves the field entirely
absent rather than present-but-empty. -/
theorem C4_zak_presence (env : Env) (now : Int) (body : ReqBody) (adalo : AdaloResp)
    (zak : Except Unit (Option String)) :
    (∀ t, respZak (handleSignRequest env now body adalo zak).resp = some t →
        respRole (handleSignRequest env now body adalo zak).resp = some 1
        ∧ t ≠ "" ∧ zak = Except.ok (some t))
    ∧ (∀ u, getUserByUUID adalo = some u → normalizeRole u.role = 0 →
        respZak (handleSignRequest env now body adalo zak).resp = none)
    ∧ (zak = Except.ok (some "") →
        respZak (handleSignRequest env now body adalo zak).resp = none) := by
  refine ⟨?_, ?_, ?_⟩
  · intro t ht
    cases hp : parseSign body with
    | none =>
      rw [handle_parse_fail env now body adalo zak hp] at ht
      simp [respZak] at ht
    | some p =>
      cases hu : getUserByUUID adalo with
      | none =>
        rw [handle_unknown env now body adalo zak p hp hu] at ht
        simp [respZak] at ht
      | some user =>
        cases hal : (user.allowedMeetings.map jsStringOf).contains (jsStringOf p.meetingNumber) with
        | false =>
          rw [handle_forbidden env now body adalo zak p user hp hu hal] at ht
          simp [respZak] at ht
        | true =>
          by_cases hcond : normalizeRole user.role = 1 ∧ user.zoomEmail.isSome = true
          · cases zak with
            | error e =>
              rw [handle_elev_error env now body adalo p user e hp hu hal hcond.1 hcond.2] at ht
              simp [respZak] at ht
            | ok t0 =>
              rw [handle_elev_ok env now body adalo p user t0 hp hu hal hcond.1 hcond.2] at ht
              simp only [respZak] at ht
              cases htr : jsTruthyO t0 with
              | false => rw [if_neg (by rw [htr]; exact Bool.false_ne_true)] at ht; simp at ht
              | true =>
                rw [if_pos htr] at ht
                subst ht
                refine ⟨?_, ?_, rfl⟩
                · rw [handle_elev_ok env now body adalo p user (some t) hp hu hal hcond.1 hcond.2]
                  simp [respRole, signJWT, hcond.1]
                · simpa [jsTruthyO] using htr
          · rw [handle_no_elevation env now body adalo zak p user hp hu hal hcond] at ht
            simp [respZak] at ht
  · intro u hu hu0
    cases hp : parseSign body with
    | none => rw [handle_parse_fail env now body adalo zak hp]; rfl
    | some p =>
      cases hal : (u.allowedMeetings.map jsStringOf).contains (jsStringOf p.meetingNumber) with
      | false => rw [handle_forbidden env now body adalo zak p u hp hu hal]; rfl
      | true =>
        have hcond : ¬(normalizeRole u.role = 1 ∧ u.zoomEmail.isSome = true) := by
          intro hc
          rw [hc.1] at hu0
          exact absurd hu0 (by decide)
        rw [handle_no_elevation env now body adalo zak p u hp hu hal hcond]
        rfl
  · intro hz
    subst hz
    cases hp : parseSign body with
    | none => rw [handle_parse_fail env now body adalo (Except.ok (some "")) hp]; rfl
    | some p =>
      cases hu : getUserByUUID adalo with
      | none => rw [handle_unknown env now body adalo (Except.ok (some "")) p hp hu]; rfl
      | some user =>
        cases hal : (user.allowedMeetings.map jsStringOf).contains (jsStringOf p.meetingNumber) with
        | false => rw [handle_forbidden env now body adalo (Except.ok (some "")) p user hp hu hal]; rfl
        | true =>
          by_cases hcond : normalizeRole user.role = 1 ∧ user.zoomEmail.isSome = true
          · rw [handle_elev_ok env now body adalo p user (some "") hp hu hal hcond.1 hcond.2]
            simp [respZak, jsTruthyO]
          · rw [handle_no_elevation env now body adalo (Except.ok (some "")) p user hp hu hal hcond]
            rfl

/-- Claim C4, witness: a concrete host request whose fetch returns the
empty token gets a response with the zak field absent. -/
theorem C4_zak_presence_witness :
    respZak (handleSignRequest env0 100 body0 adalo0 (Except.ok (some ""))).resp = none :=
  (C4_zak_presence env0 100 body0 adalo0 (Except.ok (some ""))).2.2 rfl

/-- Claim C5.  For a valid-schema request, an upstream identity-lookup
failure and a zero-record lookup produce identical handler results — in
particular the same 401 body, indistinguishable to the client — and the
elevation fetch is never reached. -/
theorem C5_unknown_identity (env : Env) (now : Int) (body : ReqBody)
    (zak : Except Unit (Option String)) (h : (parseSign body).isSome = true) :
    handleSignRequest env now body AdaloResp.fail zak
      = handleSignRequest env now body (AdaloResp.ok []) zak
    ∧ (handleSignRequest env now body AdaloResp.fail zak).resp = Resp.err 401 "Unknown user"
    ∧ (handleSignRequest env now body AdaloResp.fail zak).zakCalled = false := by
  obtain ⟨p, hp⟩ := Option.isSome_iff_exists.mp h
  rw [handle_unknown env now body AdaloResp.fail zak p hp rfl,
    handle_unknown env now body (AdaloResp.ok []) zak p hp rfl]
  exact ⟨rfl, rfl, rfl⟩

/-- Claim C5, witness at a concrete valid body. -/
theorem C5_unknown_identity_witness :
    handleSignRequest env0 100 body0 AdaloResp.fail (Except.ok none)
      = handleSignRequest env0 100 body0 (AdaloResp.ok []) (Except.ok none)
    ∧ (handleSignRequest env0 100 body0 AdaloResp.fail (Except.ok none)).resp
        = Resp.err 401 "Unknown user"
    ∧ (handleSignRequest env0 100 body0 AdaloResp.fail (Except.ok none)).zakCalled = false :=
  C5_unknown_identity env0 100 body0 (Except.ok none) rfl

/-- Claim C6.  A body whose uuid is missing or shorter than 10 characters
is rejected with the 400 schema-error response, and neither the identity
store nor the elevation endpoint (nor, through it, the OAuth exchange) is
called. -/
theorem C6_schema_rejection (env : Env) (now : Int) (body : ReqBody) (adalo : AdaloResp)
    (zak : Except Unit (Option String))
    (h : body.uuid = none ∨ ∃ s, body.uuid = some s ∧ s.length < 10) :
    handleSignRequest env now body adalo zak = ⟨Resp.err 400 "Invalid body", false, false⟩ := by
  have hp : parseSign body = none := by
    rcases h with h | ⟨s, hs, hlen⟩
    · unfold parseSign
      rw [h]
    · have hlen2 : ¬(s.length ≥ 10) := by omega
      unfold parseSign
      rw [hs]
      cases hm : body.meetingNumber with
      | none => rfl
      | some m => simp [hlen2]
  exact handle_parse_fail env now body adalo zak hp

/-- Claim C6, witness at a concrete five-character uuid. -/
theorem C6_schema_rejection_witness :
    handleSignRequest env0 100 bodyShortUuid adalo0 (Except.ok none)
      = ⟨Resp.err 400 "Invalid body", false, false⟩ :=
  C6_schema_rejection env0 100 bodyShortUuid adalo0 (Except.ok none)
    (Or.inr ⟨"short", rfl, by decide⟩)

/-- Claim C7.  getZoomAccessToken returns the cached token with the cache
untouched and no refresh exactly when a truthy cached token exists and
now < cachedExpiry - 60; otherwise it performs the OAuth exchange,
replacing both the cached token and its expiry on success, and failing
with the upstream status and body on a non-success response. -/
theorem C7_token_cache (st : AuthState) (now : Int) (up : TokenResp) :
    ((jsTruthyO st.cachedToken = true ∧ now < st.cachedExpiry - 60) →
        getZoomAccessToken st now up = ⟨Except.ok (st.cachedToken.getD ""), st, false⟩)
    ∧ ((getZoomAccessToken st now up).refreshed = false ↔
        (jsTruthyO st.cachedToken = true ∧ now < st.cachedExpiry - 60))
    ∧ (¬(jsTruthyO st.cachedToken = true ∧ now < st.cachedExpiry - 60) →
        (∀ t e, up = TokenResp.ok t e →
            getZoomAccessToken st now up = ⟨Except.ok t, ⟨some t, now + e⟩, true⟩)
        ∧ (∀ s b, up = TokenResp.fail s b →
            getZoomAccessToken st now up = ⟨Except.error (s, b), st, true⟩)) := by
  by_cases h : jsTruthyO st.cachedToken = true ∧ now < st.cachedExpiry - 60
  · have he : getZoomAccessToken st now up = ⟨Except.ok (st.cachedToken.getD ""), st, false⟩ := by
      unfold getZoomAccessToken
      rw [if_pos h]
    refine ⟨fun _ => he, ?_, fun hn => absurd h hn⟩
    rw [he]
    simpa using h
  · have he : getZoomAccessToken st now up
        = match up with
          | TokenResp.fail s b => ⟨Except.error (s, b), st, true⟩
          | TokenResp.ok tok ei => ⟨Except.ok tok, ⟨some tok, now + ei⟩, true⟩ := by
      unfold getZoomAccessToken
      rw [if_neg h]
    refine ⟨fun hc => absurd hc h, ?_, ?_⟩
    · rw [he]
      cases up <;> simpa using h
    · intro _
      constructor
      · intro t e hup
        subst hup
        rw [he]
      · intro s b hup
        subst hup
        rw [he]

/-- Claim C7, witness: a fresh cached token is returned unchanged even
when the upstream endpoint would fail. -/
theorem C7_token_cache_witness :
    getZoomAccessToken ⟨some "cached-token", 1000⟩ 100 (TokenResp.fail 500 "boom")
      = ⟨Except.ok "cached-token", ⟨some "cached-token", 1000⟩, false⟩ :=
  (C7_token_cache ⟨some "cached-token", 1000⟩ 100 (TokenResp.fail 500 "boom")).1
    ⟨rfl, by decide⟩

/-- Claim C8.  The role normalization of index.js:103 yields host (1)
exactly when the Role attribute coerces to the number 1, and attendee (0)
otherwise — in particular for a missing attribute (undefined), the number
0, and any string that does not parse as a number. -/
theorem C8_role_normalization (v : JSValue) :
    (normalizeRole v = 1 ↔ jsToNumber v = some 1)
    ∧ normalizeRole JSValue.undef = 0
    ∧ normalizeRole (JSValue.num 0) = 0
    ∧ (∀ s, jsStringToNumber s = none → normalizeRole (JSValue.str s) = 0) := by
  refine ⟨?_, by decide, by decide, ?_⟩
  · unfold normalizeRole
    by_cases h : jsToNumber v = some 1
    · simp [h]
    · simp [h]
  · intro s hs
    simp [normalizeRole, jsToNumber, hs]

/-- Claim C8, witness: a non-numeric string role normalizes to attendee. -/
theorem C8_role_normalization_witness :
    normalizeRole (JSValue.str "manager") = 0 :=
  (C8_role_normalization (JSValue.str "manager")).2.2.2 "manager" (by decide)

/-- Claim C9, counterexample.  An environment providing exactly the four
variables the startup loop checks — but no OAuth client id — passes the
startup check: the process starts although a configuration value the spec
lists as required is absent. -/
theorem C9_counterexample :
    startupExits envC9 = false ∧ envC9 "ZOOM_CLIENT_ID" = none := by
  decide

/-- Claim C9, amended.  The startup check aborts the process exactly when
one of ZOOM_MEETING_SDK_KEY, ZOOM_MEETING_SDK_SECRET, ADALO_API_KEY,
ADALO_COLLECTION_ID is absent or empty; the OAuth client id/secret,
account id, Adalo app id, allowed origins, rate limit and claim TTL are
not validated at startup. -/
theorem C9_amended (env : String → Option String) :
    startupExits env = true ↔
      (jsTruthyO (env "ZOOM_MEETING_SDK_KEY") = false
       ∨ jsTruthyO (env "ZOOM_MEETING_SDK_SECRET") = false
       ∨ jsTruthyO (env "ADALO_API_KEY") = false
       ∨ jsTruthyO (env "ADALO_COLLECTION_ID") = false) := by
  simp [startupExits, requiredEnvVars, List.any_cons, List.any_nil,
    Bool.or_eq_true, Bool.not_eq_true']

/-- Claim C10.  A resolved record with a missing AllowedMeetings attribute
or an empty AllowedMeetings list is rejected with 403 for every meeting
number of every valid request, before any elevation fetch: the allow-list
check is unconditional and defaults to deny-all. -/
theorem C10_empty_allowlist (env : Env) (now : Int) (body : ReqBody)
    (zak : Except Unit (Option String)) (r : UserRecord) (rest : List UserRecord) (p : Parsed)
    (hp : parseSign body = some p)
    (hr : r.AllowedMeetings = none ∨ r.AllowedMeetings = some []) :
    handleSignRequest env now body (AdaloResp.ok (r :: rest)) zak
      = ⟨Resp.err 403 "User not allowed for this meeting", true, false⟩ := by
  have hu : getUserByUUID (AdaloResp.ok (r :: rest))
      = some ⟨r.Role, jsOrNull r.ZoomEmail, []⟩ := by
    rcases hr with h | h <;> simp [getUserByUUID, h]
  exact handle_forbidden env now body (AdaloResp.ok (r :: rest)) zak p
    ⟨r.Role, jsOrNull r.ZoomEmail, []⟩ hp hu rfl

/-- Claim C10, witness: a host record with no AllowedMeetings attribute is
rejected with 403 at a concrete valid request. -/
theorem C10_empty_allowlist_witness :
    handleSignRequest env0 100 body0 (AdaloResp.ok [recNoMeetings]) (Except.ok none)
      = ⟨Resp.err 403 "User not allowed for this meeting", true, false⟩ :=
  C10_empty_allowlist env0 100 body0 (Except.ok none) recNoMeetings [] parsed0 rfl (Or.inl rfl)
